import Mathlib

/-!
Shallow embedding of `starsearch/phase3Archive.py` (class `ESOquery`).

Modelling conventions:
* An `ObservationRecord` (one row of an astropy result table) is the structure
  `Row`; only the columns the code touches are kept: `Instrument`,
  `Date Obs`, `SNR (spectra)` and `ARCFILE`.
* Observation dates are ISO `YYYY-MM-DD` strings; `astropy.time.Time`
  comparison on such strings coincides with lexicographic order, so
  `Time(a) < Time(b)` is modelled as `a.data < b.data` (lexicographic order
  on the underlying character lists).
* SNR values are modelled as `ℚ` (the code only ever compares them, never
  computes with them, so any linear order is faithful).
* The remote ESO collaborator (`self.eso`) is an abstract environment `Eso`
  whose query methods may fail (a Python exception becomes `Except.error ()`,
  which every caller propagates except `readList`).
* Console prints and `retrieve_data` calls are observable side effects; the
  download methods return the list of `Event`s they emit along the successful
  execution path.
-/

/-- One row of an ESO query result table. -/
structure Row where
  instrument : String
  dateObs : String
  snr : ℚ
  arcfile : String
  deriving DecidableEq, Repr

/-- The remote ESO archive collaborator: `query_main` (main catalog query by
target) and `query_surveys` (phase-3 survey query by survey list and target).
Either call may raise, modelled as `Except.error ()`. -/
structure Eso where
  query_main : String → Except Unit (List Row)
  query_surveys : List String → String → Except Unit (List Row)

/-- `self.instruments = np.array(['FEROS', 'UVES', 'HARPS', 'ESPRESSO'])`. -/
def instruments : List String := ["FEROS", "UVES", "HARPS", "ESPRESSO"]

/-- `if not date: date = Time('1990-01-23')`: a `None` or empty-string date
argument is replaced by the default date. -/
def effDate (date : Option String) : String :=
  match date with
  | none => "1990-01-23"
  | some s => if s = "" then "1990-01-23" else s

/-- `if not SNR: SNR = 30`: a `None` or zero SNR argument is replaced by 30. -/
def effSNR (snr : Option ℚ) : ℚ :=
  match snr with
  | none => 30
  | some x => if x = 0 then 30 else x

/-- The two `remove_rows` post-filters of `searchStar`: first drop rows with
`Date Obs < date`, then drop rows with `SNR (spectra) < SNR`. -/
def filterRows (rows : List Row) (d : String) (s : ℚ) : List Row :=
  (rows.filter (fun r => !decide (r.dateObs.data < d.data))).filter
    (fun r => !decide (r.snr < s))

/-- The survey query issued by `searchStar`: one instrument's survey if the
`instrument` argument is truthy, else all recognized instruments jointly. -/
def queryFor (eso : Eso) (star : String) (instrument : Option String) :
    Except Unit (List Row) :=
  match instrument with
  | none => eso.query_surveys instruments star
  | some i => if i = "" then eso.query_surveys instruments star
              else eso.query_surveys [i] star

/-- `ESOquery.searchStar`: survey query for one instrument (if the argument is
truthy) or all recognized instruments, followed by the date and SNR
post-filters. -/
def searchStar (eso : Eso) (star : String) (instrument : Option String)
    (date : Option String) (snr : Option ℚ) : Except Unit (List Row) :=
  match queryFor eso star instrument with
  | .error e => .error e
  | .ok rows => .ok (filterRows rows (effDate date) (effSNR snr))

/-- `ESOquery.searchBySNR`: `searchStar(star, instrument)` followed by one more
SNR floor filter. -/
def searchBySNR (eso : Eso) (star : String) (instrument : Option String)
    (snr : Option ℚ) : Except Unit (List Row) :=
  let s := effSNR snr
  match searchStar eso star instrument none none with
  | .error e => .error e
  | .ok rows => .ok (rows.filter (fun r => !decide (r.snr < s)))

/-- `ESOquery.searchInstruments`: main-catalog query grouped by instrument.
`np.unique` sorts its keys; only the key set and the counts are ever used, so
the dictionary is modelled as an association list over the deduplicated
instrument names. -/
def searchInstruments (eso : Eso) (star : String) :
    Except Unit (List (String × Nat)) :=
  match eso.query_main star with
  | .error e => .error e
  | .ok rows =>
      .ok (((rows.map (fun r => r.instrument)).dedup).map
        (fun j => (j, rows.countP (fun r => decide (r.instrument = j)))))

/-- One entry per name in `js`: the name paired with the number of rows whose
`Instrument` column equals it (`np.sum(rows['Instrument'] == j)`). -/
def countsFor (rows : List Row) (js : List String) : List (String × Nat) :=
  js.map (fun j => (j, rows.countP (fun r => decide (r.instrument = j))))

/-- `ESOquery.searchInstrumentSpectra`: counts rows of `searchStar(star)`
(per given instrument if truthy, else per recognized instrument). -/
def searchInstrumentSpectra (eso : Eso) (star : String)
    (instrument : Option String) : Except Unit (List (String × Nat)) :=
  match searchStar eso star none none none with
  | .error e => .error e
  | .ok rows =>
      match instrument with
      | some i =>
          if i = "" then .ok (countsFor rows instruments)
          else .ok [(i, rows.countP (fun r => decide (r.instrument = i)))]
      | none => .ok (countsFor rows instruments)

/-- `ESOquery._remove_planet`: strip a trailing exoplanet letter or a trailing
`.01`/`.02`/`.2` designation. `str.endswith` and Python's negative slicing are
modelled on the underlying character lists. -/
def pyEndsWith (s suffix : String) : Bool :=
  suffix.data.isSuffixOf s.data

/-- Python `name[:-n]` for `n > 0`: drop the last `n` characters (empty result
when the name is shorter than `n`). -/
def pyDropLast (s : String) (n : Nat) : String :=
  ⟨s.data.take (s.data.length - n)⟩

/-- `planets = 'bcdefghijB'`. -/
def planets : List Char := ['b', 'c', 'd', 'e', 'f', 'g', 'h', 'i', 'j', 'B']

def _remove_planet (name : String) : String :=
  match planets.find? (fun p => pyEndsWith name ⟨[' ', p]⟩) with
  | some _ => pyDropLast name 2
  | none =>
      if pyEndsWith name ".01" || pyEndsWith name ".02" || pyEndsWith name ".2"
      then pyDropLast name 3
      else name

/-- A concrete archive stub: every survey query returns the single row
`rowC1`. Used to instantiate the `searchStar` post-filter theorem. -/
def rowC1 : Row := ⟨"HARPS", "2000-01-01", 50, "F1"⟩

def esoC1 : Eso where
  query_main := fun _ => .ok []
  query_surveys := fun _ _ => .ok [rowC1]

/-- Stub rows for the end-to-end `searchBySNR` scenario: star `"X"` has
exactly two rows, one with SNR 25 and one with SNR 35. -/
def rowX25 : Row := ⟨"HARPS", "2010-01-01", 25, "A25"⟩

def rowX35 : Row := ⟨"HARPS", "2010-01-01", 35, "A35"⟩

def esoX : Eso where
  query_main := fun _ => .ok []
  query_surveys := fun _ target =>
    if target = "X" then .ok [rowX25, rowX35] else .ok []

/-- Observable side effects of the download methods: a progress print, a
`No {instrument} data` print, one `eso.retrieve_data(datasets, destination)`
call, and the final completion print. -/
inductive Event where
  | searching (instr : String)
  | noData (instr : String)
  | retrieveData (datasets : List String) (destination : Option String)
  | done
  deriving DecidableEq, Repr

def Event.isRetrieve : Event → Bool
  | Event.retrieveData _ _ => true
  | _ => false

/-- `ESOquery._searchAndDownload`: resolve the matching rows via `searchStar`,
extract their `ARCFILE` identifiers, and issue exactly one `retrieve_data`
call (with an explicit destination only when `downloadPath` is truthy). -/
def _searchAndDownload (eso : Eso) (star : String)
    (instrument downloadPath date : Option String) (snr : Option ℚ) :
    Except Unit (List Event) :=
  match searchStar eso star instrument date snr with
  | .error e => .error e
  | .ok rows =>
      match downloadPath with
      | some p =>
          if p = "" then
            .ok [Event.retrieveData (rows.map (fun r => r.arcfile)) none]
          else .ok [Event.retrieveData (rows.map (fun r => r.arcfile)) (some p)]
      | none => .ok [Event.retrieveData (rows.map (fun r => r.arcfile)) none]

/-- The shared loop body of `_getData` / `getALLdata` / `getFEROSdata` / ...:
for each instrument of the fixed iteration list, print the progress line, then
either download (when the instrument is a key of the discovery dictionary) or
print the `No data` line. -/
def downloadLoop (eso : Eso) (star : String)
    (downloadPath date : Option String) (snr : Option ℚ)
    (keys : List String) : List String → Except Unit (List Event)
  | [] => .ok []
  | j :: rest =>
      if j ∈ keys then
        match _searchAndDownload eso star (some j) downloadPath date snr with
        | .error e => .error e
        | .ok evs =>
            match downloadLoop eso star downloadPath date snr keys rest with
            | .error e => .error e
            | .ok evs2 => .ok (Event.searching j :: (evs ++ evs2))
      else
        match downloadLoop eso star downloadPath date snr keys rest with
        | .error e => .error e
        | .ok evs2 => .ok (Event.searching j :: Event.noData j :: evs2)

/-- `ESOquery.getFEROSdata`: discovery via `searchInstruments`, then the
download loop over the fixed list `['FEROS']`, then the completion print. -/
def getFEROSdata (eso : Eso) (star : String)
    (downloadPath date : Option String) (snr : Option ℚ) :
    Except Unit (List Event) :=
  match searchInstruments eso star with
  | .error e => .error e
  | .ok dict =>
      match downloadLoop eso star downloadPath date snr (dict.map Prod.fst)
          ["FEROS"] with
      | .error e => .error e
      | .ok evs => .ok (evs ++ [Event.done])

/-- Console lines printed by `readList`: the `*** name ***` header per star,
the empty line printed on success, and the `Star not found in archive!`
notice printed when the per-star query raises. -/
inductive LogLine where
  | header (star : String)
  | okLine
  | notFound
  deriving DecidableEq, Repr

/-- Whether the `searchStar` call for a given star name raises. -/
def queryFails (eso : Eso) (instrument date : Option String) (snr : Option ℚ)
    (star : String) : Bool :=
  match searchStar eso star instrument date snr with
  | .error _ => true
  | .ok _ => false

/-- The console log of `readList`'s loop over the star names. -/
def readListLog (eso : Eso) (instrument date : Option String) (snr : Option ℚ) :
    List String → List LogLine
  | [] => []
  | j :: rest =>
      LogLine.header j ::
        (if queryFails eso instrument date snr j then LogLine.notFound
         else LogLine.okLine) ::
        readListLog eso instrument date snr rest

/-- `ESOquery.readList`. The `np.loadtxt(..., delimiter='\t', usecols=[0],
skiprows=1)` collaborator is modelled by the environment function `loadtxt`
mapping a path to the first-column star names with the header row skipped.
The code ignores the `filename` argument and reads the hardcoded path
`'WEBSITE_online.rdb'`; it returns the star names together with the console
log (the `except:` clause makes the loop total: a failed query logs a notice
and the batch continues). -/
def readList (loadtxt : String → List String) (eso : Eso) (filename : String)
    (instrument downloadPath date : Option String) (snr : Option ℚ) :
    List String × List LogLine :=
  let stars := loadtxt "WEBSITE_online.rdb"
  (stars, readListLog eso instrument date snr stars)

/-- A three-row catalog file: star names `A`, `B`, `C`. -/
def loadtxt3 : String → List String := fun _ => ["A", "B", "C"]

/-- An archive stub on which exactly the query for star `B` raises. -/
def esoB : Eso where
  query_main := fun _ => .ok []
  query_surveys := fun _ target => if target = "B" then .error () else .ok []

/-- Stub rows for `searchInstrumentSpectra`: two FEROS rows and one HARPS
row, all passing the default date and SNR filters. -/
def rows6 : List Row :=
  [⟨"FEROS", "2005-05-05", 50, "a1"⟩, ⟨"FEROS", "2006-06-06", 60, "a2"⟩,
   ⟨"HARPS", "2007-07-07", 70, "a3"⟩]

def eso6 : Eso where
  query_main := fun _ => .ok rows6
  query_surveys := fun _ _ => .ok rows6

/-- An archive stub whose main catalog has no rows at all, so instrument
discovery returns the empty dictionary. -/
def eso7 : Eso where
  query_main := fun _ => .ok []
  query_surveys := fun _ _ => .ok []

/-- An archive stub whose survey queries all succeed with zero rows. -/
def eso8 : Eso where
  query_main := fun _ => .ok []
  query_surveys := fun _ _ => .ok []

/-- `C9`: `_remove_planet` satisfies the three reference examples:
`"51 Peg b" ↦ "51 Peg"`, `"HD 1234.01" ↦ "HD 1234"`, and `"Vega"` (no
recognized suffix) is returned unchanged. -/
theorem remove_planet_examples :
    _remove_planet "51 Peg b" = "51 Peg" ∧
    _remove_planet "HD 1234.01" = "HD 1234" ∧
    _remove_planet "Vega" = "Vega" := by
  refine ⟨?_, ?_, ?_⟩ <;> decide

/-- `C2`: on a name ending in `".2"` the code removes three characters, not
the two-character suffix: `_remove_planet "Kepler-42.2"` evaluates to
`"Kepler-4"`, while stripping exactly `".2"` would give `"Kepler-42"`. -/
theorem remove_planet_dot2_truncates :
    _remove_planet "Kepler-42.2" = "Kepler-4" ∧ "Kepler-4" ≠ "Kepler-42" := by
  refine ⟨by decide, by decide⟩

/-- `C10`: `searchStar` treats falsy arguments as absent: `SNR = 0` behaves
exactly like `SNR = 30` (the default), and an empty-string date behaves
exactly like an absent date. -/
theorem searchStar_falsy_defaults (eso : Eso) (star : String)
    (instrument : Option String) :
    (∀ date : Option String,
      searchStar eso star instrument date (some 0) =
        searchStar eso star instrument date (some 30)) ∧
    (∀ snr : Option ℚ,
      searchStar eso star instrument (some "") snr =
        searchStar eso star instrument none snr) := by
  constructor
  · intro date
    have h : effSNR (some 0) = effSNR (some 30) := by
      simp [effSNR]
    simp [searchStar, h]
  · intro snr
    have h : effDate (some "") = effDate none := by
      simp [effDate]
    simp [searchStar, h]

/-- Membership in the filtered rows gives membership in the original rows
plus both threshold bounds (on the effective thresholds). -/
theorem mem_filterRows {r : Row} {rows : List Row} {d : String} {s : ℚ}
    (h : r ∈ filterRows rows d s) :
    r ∈ rows ∧ d.data ≤ r.dateObs.data ∧ s ≤ r.snr := by
  unfold filterRows at h
  simp only [List.mem_filter, Bool.not_eq_true', decide_eq_false_iff_not] at h
  exact ⟨h.1.1, not_lt.mp h.1.2, not_lt.mp h.2⟩

/-- The effective date is at least the requested date in lexicographic
order (an empty requested date is below everything). -/
theorem effDate_le (d : String) : d.data ≤ (effDate (some d)).data := by
  by_cases hd : d = ""
  · subst hd
    simp only [effDate, if_pos rfl]
    decide
  · simp [effDate, hd]

/-- The effective SNR is at least the requested SNR (a requested SNR of 0 is
below the default 30). -/
theorem effSNR_le (t : ℚ) : t ≤ effSNR (some t) := by
  by_cases ht : t = 0
  · subst ht
    simp only [effSNR, if_pos rfl]
    decide
  · simp [effSNR, ht]

/-- `C1`: every row returned by `searchStar(star, instrument, d, t)` has
observation date at least `d` (lexicographic order on ISO date strings) and
SNR at least `t`: rows failing either predicate are removed by the two
post-filters. -/
theorem searchStar_rows_ge_thresholds (eso : Eso) (star : String)
    (instrument : Option String) (d : String) (t : ℚ) (rows : List Row)
    (r : Row) (h : searchStar eso star instrument (some d) (some t) = .ok rows)
    (hr : r ∈ rows) : d.data ≤ r.dateObs.data ∧ t ≤ r.snr := by
  unfold searchStar at h
  cases hq : queryFor eso star instrument with
  | error e => rw [hq] at h; cases h
  | ok rows0 =>
      rw [hq] at h
      cases h
      have hm := mem_filterRows hr
      exact ⟨le_trans (effDate_le d) hm.2.1, le_trans (effSNR_le t) hm.2.2⟩

/-- Witness: instantiating `C1` at the stub archive `esoC1` with thresholds
`d = "1999-01-01"` and `t = 40`. -/
theorem searchStar_rows_ge_thresholds_witness :
    ("1999-01-01" : String).data ≤ rowC1.dateObs.data ∧ (40 : ℚ) ≤ rowC1.snr :=
  searchStar_rows_ge_thresholds esoC1 "S" none "1999-01-01" 40 [rowC1] rowC1
    rfl (by decide)

/-- `C3`: every row returned by `searchBySNR(star, instrument, t)` has SNR at
least `t`; and on the stub archive where star `"X"` has exactly two rows with
SNR 25 and SNR 35, `searchBySNR("X", SNR := 30)` returns exactly the 35-SNR
row. -/
theorem searchBySNR_rows_ge :
    (∀ (eso : Eso) (star : String) (instrument : Option String) (t : ℚ)
       (rows : List Row) (r : Row),
       searchBySNR eso star instrument (some t) = .ok rows → r ∈ rows →
       t ≤ r.snr) ∧
    searchBySNR esoX "X" none (some 30) = .ok [rowX35] := by
  constructor
  · intro eso star instrument t rows r h hr
    unfold searchBySNR at h
    cases hq : searchStar eso star instrument none none with
    | error e => rw [hq] at h; cases h
    | ok rows0 =>
        rw [hq] at h
        cases h
        simp only [List.mem_filter, Bool.not_eq_true',
          decide_eq_false_iff_not] at hr
        exact le_trans (effSNR_le t) (not_lt.mp hr.2)
  · rfl

/-- Witness: instantiating `C3` with the stub archive of the end-to-end
scenario, at its 35-SNR row. -/
theorem searchBySNR_rows_ge_witness : (30 : ℚ) ≤ rowX35.snr :=
  searchBySNR_rows_ge.1 esoX "X" none 30 [rowX35] rowX35
    searchBySNR_rows_ge.2 (by decide)

/-- The number of failure notices in `readList`'s log equals the number of
star names whose query raises. -/
theorem readListLog_notFound_count (eso : Eso)
    (instrument date : Option String) (snr : Option ℚ) (stars : List String) :
    (readListLog eso instrument date snr stars).countP
        (fun e => decide (e = LogLine.notFound)) =
      stars.countP (queryFails eso instrument date snr) := by
  induction stars with
  | nil => rfl
  | cons j rest ih =>
      by_cases hf : queryFails eso instrument date snr j = true
      · simp [readListLog, List.countP_cons, hf, ih]
      · simp [readListLog, List.countP_cons, hf, ih]

/-- `C4`: `readList` always returns the full list of star names read from the
(hardcoded) catalog file and never raises: each name whose query fails
contributes exactly one failure notice to the log and the batch continues.
On a three-row catalog where the second star's query raises, all three names
are returned and exactly one failure notice is logged. -/
theorem readList_returns_names_and_logs :
    (∀ (loadtxt : String → List String) (eso : Eso) (filename : String)
       (instrument downloadPath date : Option String) (snr : Option ℚ),
       (readList loadtxt eso filename instrument downloadPath date snr).1 =
         loadtxt "WEBSITE_online.rdb" ∧
       (readList loadtxt eso filename instrument downloadPath date
             snr).2.countP (fun e => decide (e = LogLine.notFound)) =
         (loadtxt "WEBSITE_online.rdb").countP
           (queryFails eso instrument date snr)) ∧
    readList loadtxt3 esoB "any-file-at-all.rdb" none none none none =
      (["A", "B", "C"],
       [LogLine.header "A", LogLine.okLine, LogLine.header "B",
        LogLine.notFound, LogLine.header "C", LogLine.okLine]) := by
  refine ⟨fun loadtxt eso filename instrument downloadPath date snr => ⟨rfl, ?_⟩, rfl⟩
  exact readListLog_notFound_count eso instrument date snr
    (loadtxt "WEBSITE_online.rdb")

/-- `C5`: `readList` is independent of its `filename` argument: with the same
environment and remaining arguments, any two filenames give the same result,
because the implementation reads the hardcoded path `'WEBSITE_online.rdb'`. -/
theorem readList_ignores_filename (loadtxt : String → List String) (eso : Eso)
    (f1 f2 : String) (instrument downloadPath date : Option String)
    (snr : Option ℚ) :
    readList loadtxt eso f1 instrument downloadPath date snr =
      readList loadtxt eso f2 instrument downloadPath date snr := rfl

/-- Summing the per-name indicator of one row over a name list counts how
often the row's instrument occurs in the list. -/
theorem sum_indicator_eq_count (x : String) (js : List String) :
    (js.map (fun j => if x = j then 1 else 0)).sum = js.count x := by
  induction js with
  | nil => rfl
  | cons j rest ih =>
      by_cases hx : x = j
      · subst hx
        simp [List.count_cons, ih]
        omega
      · simp [List.count_cons, ih, hx, Ne.symm hx]

/-- Over a duplicate-free name list, the per-name row counts sum to at most
the number of rows (each row is counted for at most one name). -/
theorem sum_countP_le (js : List String) (hnd : js.Nodup) (rows : List Row) :
    (js.map (fun j => rows.countP (fun r => decide (r.instrument = j)))).sum ≤
      rows.length := by
  induction rows with
  | nil => simp
  | cons r rest ih =>
      have hsplit :
          (js.map (fun j =>
            (r :: rest).countP (fun q => decide (q.instrument = j)))).sum =
          (js.map (fun j =>
            rest.countP (fun q => decide (q.instrument = j)))).sum +
          (js.map (fun j => if r.instrument = j then 1 else 0)).sum := by
        induction js with
        | nil => rfl
        | cons a as iha =>
            simp only [List.map_cons, List.sum_cons, List.countP_cons, iha]
            by_cases ha : r.instrument = a <;> simp [ha] <;> omega
      rw [hsplit, sum_indicator_eq_count]
      have hc : js.count r.instrument ≤ 1 := List.nodup_iff_count_le_one.mp hnd _
      simp only [List.length_cons]
      omega

/-- The post-filters never add rows. -/
theorem filterRows_length_le (rows : List Row) (d : String) (s : ℚ) :
    (filterRows rows d s).length ≤ rows.length :=
  le_trans (List.length_filter_le _ _) (List.length_filter_le _ _)

/-- `C6`: with no instrument argument, `searchInstrumentSpectra(star)` returns
the map over exactly the four recognized instruments, every count is
non-negative, and the counts sum to at most the number of rows the survey
query returned for that star; with a (truthy) instrument argument it returns
the single-entry map for that instrument. -/
theorem searchInstrumentSpectra_keys_counts (eso : Eso) (star : String)
    (rows qrows : List Row)
    (h : searchStar eso star none none none = .ok rows)
    (hq : eso.query_surveys instruments star = .ok qrows) :
    (searchInstrumentSpectra eso star none = .ok (countsFor rows instruments) ∧
     (countsFor rows instruments).map Prod.fst = instruments ∧
     (∀ c ∈ (countsFor rows instruments).map Prod.snd, 0 ≤ c) ∧
     ((countsFor rows instruments).map Prod.snd).sum ≤ qrows.length) ∧
    (∀ i : String, i ≠ "" →
      searchInstrumentSpectra eso star (some i) =
        .ok [(i, rows.countP (fun r => decide (r.instrument = i)))]) := by
  have hlen : rows.length ≤ qrows.length := by
    have hqf : queryFor eso star none = .ok qrows := hq
    unfold searchStar at h
    rw [hqf] at h
    cases h
    exact filterRows_length_le qrows _ _
  refine ⟨⟨?_, ?_, ?_, ?_⟩, ?_⟩
  · unfold searchInstrumentSpectra
    rw [h]
  · simp [countsFor, List.map_map, Function.comp_def]
  · intro c _
    exact Nat.zero_le c
  · have hsum := sum_countP_le instruments (by decide) rows
    calc ((countsFor rows instruments).map Prod.snd).sum
        = (instruments.map
            (fun j => rows.countP (fun r => decide (r.instrument = j)))).sum := by
          simp [countsFor, List.map_map]
          rfl
      _ ≤ rows.length := hsum
      _ ≤ qrows.length := hlen
  · intro i hi
    unfold searchInstrumentSpectra
    rw [h]
    simp [hi]

/-- Witness: instantiating `C6` at the stub archive `eso6`, whose three rows
all pass the default filters. -/
theorem searchInstrumentSpectra_keys_counts_witness :
    ((countsFor rows6 instruments).map Prod.snd).sum ≤ rows6.length ∧
    searchInstrumentSpectra eso6 "S" (some "HARPS") =
      .ok [("HARPS", rows6.countP (fun r => decide (r.instrument = "HARPS")))] :=
  ⟨(searchInstrumentSpectra_keys_counts eso6 "S" rows6 rows6 rfl rfl).1.2.2.2,
   (searchInstrumentSpectra_keys_counts eso6 "S" rows6 rows6 rfl rfl).2 "HARPS"
     (by decide)⟩

/-- `C7`: when instrument discovery has no `FEROS` entry, `getFEROSdata`
issues zero `retrieve_data` calls and emits exactly one `No FEROS data`
notice; and whenever a `retrieve_data` call appears among its events, `FEROS`
was present in the discovery result. -/
theorem getFEROSdata_no_data (eso : Eso) (star : String)
    (downloadPath date : Option String) (snr : Option ℚ)
    (dict : List (String × Nat))
    (h : searchInstruments eso star = .ok dict) :
    ("FEROS" ∉ dict.map Prod.fst →
      getFEROSdata eso star downloadPath date snr =
        .ok [Event.searching "FEROS", Event.noData "FEROS", Event.done] ∧
      ∀ evs, getFEROSdata eso star downloadPath date snr = .ok evs →
        evs.countP Event.isRetrieve = 0 ∧
        evs.countP (fun e => decide (e = Event.noData "FEROS")) = 1) ∧
    (∀ (evs datasets : List _) (dest : Option String),
      getFEROSdata eso star downloadPath date snr = .ok evs →
      Event.retrieveData datasets dest ∈ evs →
      "FEROS" ∈ dict.map Prod.fst) := by
  constructor
  · intro hno
    have hval : getFEROSdata eso star downloadPath date snr =
        .ok [Event.searching "FEROS", Event.noData "FEROS", Event.done] := by
      unfold getFEROSdata
      rw [h]
      simp [downloadLoop, hno]
    refine ⟨hval, fun evs hevs => ?_⟩
    rw [hval] at hevs
    cases hevs
    constructor
    · rfl
    · rfl
  · intro evs datasets dest hevs hmem
    by_cases hin : "FEROS" ∈ dict.map Prod.fst
    · exact hin
    · exfalso
      have hval : getFEROSdata eso star downloadPath date snr =
          .ok [Event.searching "FEROS", Event.noData "FEROS", Event.done] := by
        unfold getFEROSdata
        rw [h]
        simp [downloadLoop, hin]
      rw [hval] at hevs
      cases hevs
      simp at hmem

/-- Witness: instantiating `C7` at the stub archive `eso7`, whose main
catalog is empty, so discovery yields the empty dictionary. -/
theorem getFEROSdata_no_data_witness :
    getFEROSdata eso7 "S" none none none =
      .ok [Event.searching "FEROS", Event.noData "FEROS", Event.done] :=
  ((getFEROSdata_no_data eso7 "S" none none none [] rfl).1 (by simp)).1

/-- `C8`: when the resolved `ResultSet` is empty, `_searchAndDownload` still
issues exactly one `retrieve_data` call, passing the empty identifier set. -/
theorem searchAndDownload_empty_still_retrieves (eso : Eso) (star : String)
    (instrument downloadPath date : Option String) (snr : Option ℚ)
    (h : searchStar eso star instrument date snr = .ok []) :
    ∃ dest : Option String,
      _searchAndDownload eso star instrument downloadPath date snr =
        .ok [Event.retrieveData [] dest] := by
  unfold _searchAndDownload
  rw [h]
  cases downloadPath with
  | none => exact ⟨none, rfl⟩
  | some p =>
      by_cases hp : p = ""
      · refine ⟨none, ?_⟩
        simp [hp]
      · refine ⟨some p, ?_⟩
        simp [hp]

/-- Witness: instantiating `C8` at the stub archive `eso8`, all of whose
survey queries succeed with zero rows. -/
theorem searchAndDownload_empty_still_retrieves_witness :
    ∃ dest : Option String,
      _searchAndDownload eso8 "S" none none none none =
        .ok [Event.retrieveData [] dest] :=
  searchAndDownload_empty_still_retrieves eso8 "S" none none none none rfl
